import Mathlib

/-!
Verification development for the crypto lead-lag analytics pipeline
(price ingestion, lag-correlation discovery, leadership graph, leader
classification, signal-rule evaluation, bounded history stores).

Each definition below is a shallow embedding of a function of the
repository; the source file and function are named in its doc comment.
Numeric literals written as decimals in the source (0.70, 1.1, ...) are
written as the equal rational numbers. Wall-clock timestamps are modelled
as natural numbers supplied by the caller (the source calls datetime.now).
Pandas floating point values are modelled as rationals; the per-lag Pearson
correlation value returned by the pandas corr call is modelled as an oracle
function from the lag to an optional rational (none models NaN, which
pandas returns when the overlap after the shift is degenerate).
-/

namespace Proyecto

/-! ## Leader quality classification (src/app.py, get_leaders_analytics, lines 241-245)

The source computes, inline per leader row:
  leader_quality = "WEAK"
  if influence >= 3 and independence == 0: leader_quality = "ALPHA"
  elif influence >= 5: leader_quality = "STRONG"
-/

/-- Embedding of the inline leader-quality rule of get_leaders_analytics
(src/app.py lines 241-245).  influence is the out-degree, independence the
in-degree of the vertex. -/
def classify (influence independence : Nat) : String :=
  if 3 ≤ influence ∧ independence = 0 then "ALPHA"
  else if 5 ≤ influence then "STRONG"
  else "WEAK"

/-! ## Best-lag sweep (src/app.py, calculate_correlations, lines 94-109)

The source initializes best_corr = 0, best_lag = 0 and sweeps lag over
range(-15, 16) skipping lag 0; an undefined correlation (NaN) is skipped;
the running best is replaced when abs(corr) > abs(best_corr).
The correlation of the pair at a given lag, df[a].corr(df[b].shift(-lag)),
is abstracted as the oracle c : Int → Option ℚ. -/

/-- One iteration of the best tracking loop of calculate_correlations:
skip an undefined correlation, otherwise replace the best exactly when the
new absolute value is strictly greater. -/
def sweepStep (c : Int → Option ℚ) (best : ℚ × Int) (lag : Int) : ℚ × Int :=
  match c lag with
  | none => best
  | some corr => if |best.1| < |corr| then (corr, lag) else best

/-- The lag window of calculate_correlations: range(-15, 16) with lag 0
skipped (line 99 of src/app.py). -/
def appLags : List Int :=
  ((List.range 31).map (fun (i : Nat) => (i : Int) - 15)).filter (fun l => l != 0)

/-- Embedding of the per-pair best-lag sweep of calculate_correlations
(src/app.py lines 94-109): fold of sweepStep over the lag window starting
from best_corr = 0, best_lag = 0. Returns (best_corr, best_lag). -/
def sweepApp (c : Int → Option ℚ) : ℚ × Int :=
  appLags.foldl (sweepStep c) (0, 0)

/-! ## Best-lag sweep of the ETL variant (src/lambda_function.py, best_lag_minutes, lines 56-66)

That variant starts from best = (0, NaN) and sweeps range(-60, 61)
including 0; it replaces when the previous best is NaN or the new absolute
value is strictly greater. -/

/-- One iteration of the tracking loop of best_lag_minutes: a defined
correlation replaces the best when no best value exists yet or the new
absolute value is strictly greater. -/
def lamStep (c : Int → Option ℚ) (best : Int × Option ℚ) (lag : Int) : Int × Option ℚ :=
  match c lag with
  | none => best
  | some v =>
    match best.2 with
    | none => (lag, some v)
    | some bv => if |bv| < |v| then (lag, some v) else best

/-- The lag window of best_lag_minutes with max_lag = 60: range(-60, 61),
lag 0 included. -/
def lamLags : List Int :=
  (List.range 121).map (fun (i : Nat) => (i : Int) - 60)

/-- Embedding of best_lag_minutes (src/lambda_function.py lines 56-66):
fold of lamStep over the window starting from (0, none), where none models
the NaN initial best. Returns (best_lag, best_corr). -/
def best_lag_minutes (c : Int → Option ℚ) : Int × Option ℚ :=
  lamLags.foldl (lamStep c) (0, none)

/-! ## History stores (src/app.py update_csv_in_s3 lines 268-303, src/signals.py update_signals_csv lines 165-192)

Both stores are read-modify-write CSV files in S3. The store content is
modelled as a list of rows in storage order; the existing store is an
Option (none models the NoSuchKey branch). The boolean result records
whether a write (s3.put_object) was performed. -/

/-- Embedding of update_csv_in_s3 (src/app.py lines 268-303). An empty
new-row set returns early without writing; otherwise the new rows are
appended and, when the combined length exceeds 5000, only the last 5000
rows are kept (tail(5000)). -/
def update_csv_in_s3 {α : Type} (existing : Option (List α)) (new : List α) :
    Option (List α) × Bool :=
  if new.isEmpty then (existing, false)
  else
    let combined :=
      match existing with
      | some ex =>
        let c := ex ++ new
        if 5000 < c.length then c.drop (c.length - 5000) else c
      | none => new
    (some combined, true)

/-- Embedding of update_signals_csv (src/signals.py lines 165-192). An
empty signal set returns early without writing; otherwise the signals are
appended and, when the combined length exceeds 2000, only the last 2000
rows are kept (tail(2000)). -/
def update_signals_csv {α : Type} (existing : Option (List α)) (new : List α) :
    Option (List α) × Bool :=
  if new.isEmpty then (existing, false)
  else
    let combined :=
      match existing with
      | some ex =>
        let c := ex ++ new
        if 2000 < c.length then c.drop (c.length - 2000) else c
      | none => new
    (some combined, true)

/-! ## Leadership graph (src/app.py, update_neptune lines 121-180 and get_leaders_analytics lines 182-266)

The Neptune graph is modelled as a vertex list and an edge list. The
Gremlin drop step removes every matching element; the Gremlin addE step
appends a new edge; the coalesce(unfold().property(...), addV(...)) vertex
upsert overwrites the properties of an existing vertex and otherwise adds
a fresh vertex. -/

/-- A leads edge of the graph, with the properties written by the addE
query of update_neptune (src/app.py lines 167-174). -/
structure Edge where
  leader : String
  follower : String
  correlation : ℚ
  lag : Int
  updated_at : Nat
deriving DecidableEq, Repr

/-- A coin vertex of the graph, with the properties written by the vertex
upsert query of update_neptune (src/app.py lines 142-155). -/
structure Vertex where
  symbol : String
  volatility : ℚ
  volume_ratio : ℚ
  last_seen : Nat
deriving DecidableEq, Repr

/-- The whole graph state owned by the Neptune store. -/
structure Graph where
  vertices : List Vertex
  edges : List Edge
deriving DecidableEq, Repr

/-- A relationship candidate as produced by calculate_correlations
(src/app.py lines 113-118). -/
structure Rel where
  leader : String
  follower : String
  correlation : ℚ
  lag_minutes : Int
deriving DecidableEq, Repr

/-- Per-coin market metadata as produced by get_binance_data
(src/app.py lines 68-71). -/
structure Meta where
  volatility : ℚ
  volume_ratio : ℚ
deriving DecidableEq, Repr

/-- Embedding of the drop query of update_neptune (src/app.py lines
160-164): remove every leads edge from the leader vertex whose head is the
follower vertex. -/
def dropEdge (es : List Edge) (l f : String) : List Edge :=
  es.filter (fun e => !(e.leader == l && e.follower == f))

/-- Embedding of one iteration of the edge loop of update_neptune
(src/app.py lines 158-175): first drop the previous edge of the ordered
pair, then append the fresh edge with the new properties. -/
def upsertRelationship (es : List Edge) (l f : String) (c : ℚ) (lag : Int)
    (now : Nat) : List Edge :=
  dropEdge es l f ++ [⟨l, f, c, lag, now⟩]

/-- Embedding of the vertex upsert query of update_neptune (src/app.py
lines 142-155): overwrite the market properties of the vertex when it
exists, otherwise add it. -/
def upsertVertex (vs : List Vertex) (coin : String) (m : Meta) (now : Nat) :
    List Vertex :=
  if vs.any (fun v => v.symbol == coin) then
    vs.map (fun v =>
      if v.symbol == coin then
        { v with volatility := m.volatility, volume_ratio := m.volume_ratio,
                 last_seen := now }
      else v)
  else vs ++ [⟨coin, m.volatility, m.volume_ratio, now⟩]

/-- Embedding of update_neptune (src/app.py lines 121-180). An empty
relationship list returns early (lines 125-127) before any vertex or edge
write; otherwise every metadata coin is vertex-upserted and then every
relationship is edge-upserted. -/
def update_neptune (g : Graph) (relationships : List Rel)
    (metadata : List (String × Meta)) (now : Nat) : Graph :=
  if relationships.isEmpty then g
  else
    { vertices := metadata.foldl (fun vs cm => upsertVertex vs cm.1 cm.2 now)
        g.vertices,
      edges := relationships.foldl
        (fun es r => upsertRelationship es r.leader r.follower r.correlation
          r.lag_minutes now)
        g.edges }

/-- A leader snapshot row as appended to market_leaders_history.csv by
get_leaders_analytics (src/app.py lines 247-259). followers_list is
modelled as the deduplicated list of (follower symbol, correlation) pairs;
the source renders it as a formatted string, and the round(-, n) calls of
the source are presentational and not modelled. -/
structure LeaderRow where
  timestamp : Nat
  leader : String
  leader_quality : String
  volatility_score : ℚ
  volume_momentum : ℚ
  influence_score : Nat
  independence_score : Nat
  follower_count : Nat
  avg_correlation : ℚ
  avg_lag_minutes : ℚ
  followers_list : List (String × ℚ)
deriving DecidableEq, Repr

/-- Outgoing leads edges of a vertex, as selected by outE of the analytics
query (src/app.py lines 199-209). -/
def outgoing (g : Graph) (s : String) : List Edge :=
  g.edges.filter (fun e => e.leader == s)

/-- In-degree of a vertex, as computed by inE(..).count() of the analytics
query (src/app.py line 204). -/
def incomingCount (g : Graph) (s : String) : Nat :=
  (g.edges.filter (fun e => e.follower == s)).length

/-- Embedding of the follower deduplication dictionary of
get_leaders_analytics (src/app.py lines 224-228): a Python dict keyed by
the follower symbol keeps the first-insertion key order and the value of
the last occurrence. -/
def dedupKeepLast (l : List Edge) : List Edge :=
  l.foldl (fun acc f =>
    if acc.any (fun g => g.follower == f.follower) then
      acc.map (fun g => if g.follower == f.follower then f else g)
    else acc ++ [f]) []

/-- Embedding of get_leaders_analytics (src/app.py lines 182-266): for
every vertex with at least one outgoing leads edge, build the snapshot row
with out-degree, in-degree, deduplicated followers, group averages and the
inline quality rule (embedded as classify). -/
def get_leaders_analytics (g : Graph) (now : Nat) : List LeaderRow :=
  (g.vertices.filter (fun v => !(outgoing g v.symbol).isEmpty)).filterMap
    (fun v =>
      let influence := (outgoing g v.symbol).length
      let independence := incomingCount g v.symbol
      let followers_clean := dedupKeepLast (outgoing g v.symbol)
      let count := followers_clean.length
      if count = 0 then none
      else some
        { timestamp := now, leader := v.symbol,
          leader_quality := classify influence independence,
          volatility_score := v.volatility,
          volume_momentum := v.volume_ratio,
          influence_score := influence,
          independence_score := independence,
          follower_count := count,
          avg_correlation :=
            (followers_clean.map (fun f => |f.correlation|)).sum / count,
          avg_lag_minutes :=
            (followers_clean.map (fun f => (f.lag : ℚ))).sum / count,
          followers_list :=
            followers_clean.map (fun f => (f.follower, f.correlation)) })

/-! ## Signal rule evaluator (src/signals.py, detect_strategies lines 26-144 and process_signals lines 146-163)

A history CSV row as read by detect_strategies. The four metadata columns
may be absent on old rows or hold NaN. For the three numeric columns the
source substitutes a default when the column is absent or its value is NaN
(lines 42-44 each carry a pd.isna check), so they are modelled as Option
fields where none means absent-or-NaN. The leader_quality column (line 41)
is guarded only on column presence, with no pd.isna check: an absent
column becomes the string WEAK, while a present NaN cell is used as the
NaN value itself. It is therefore modelled as a two-level Option: none is
an absent column, some none a present NaN cell, some (some s) a present
string s; the quality value flowing into the rules is an Option String
whose none is NaN. The Python comparison of a NaN quality with a string
literal is False, so the rule predicates compare against some of the
literal. The description field of a signal is a formatted human-readable
sentence and is not modelled; generated_at is the wall clock of the run
and is not modelled. -/

/-- A row of market_leaders_history.csv as consumed by detect_strategies
(src/signals.py lines 32-44). -/
structure SnapshotRow where
  timestamp : Nat
  leader : String
  follower_count : Nat
  avg_correlation : ℚ
  avg_lag_minutes : ℚ
  leader_quality : Option (Option String)
  volatility_score : Option ℚ
  volume_momentum : Option ℚ
  influence_score : Option Nat
deriving DecidableEq, Repr, Inhabited

/-- Substitution of src/signals.py line 41: the quality falls back to the
string WEAK only when the column is absent; a present cell is used as-is,
including a present NaN cell (modelled as none), since line 41 has no
pd.isna guard. -/
def qualityOf (row : SnapshotRow) : Option String :=
  match row.leader_quality with
  | none => some "WEAK"
  | some v => v

/-- Default substitution of src/signals.py line 42: volatility falls back
to 0.0 when absent or NaN. -/
def volatilityOf (row : SnapshotRow) : ℚ :=
  row.volatility_score.getD 0

/-- Default substitution of src/signals.py line 43: volume momentum falls
back to 1.0 when absent or NaN. -/
def volumeMomOf (row : SnapshotRow) : ℚ :=
  row.volume_momentum.getD 1

/-- Default substitution of src/signals.py line 44: influence falls back
to the follower count when absent or NaN. -/
def influenceOf (row : SnapshotRow) : Nat :=
  row.influence_score.getD row.follower_count

/-- The signal record written to trading_signals.csv (src/signals.py
lines 52-58 and 132-142); the provenance fields added by the final update
loop are included, description and generated_at are not modelled. -/
structure SignalRecord where
  strategy : String
  signal_strength : String
  action_asset : String
  trade_asset : String
  condition : String
  data_timestamp : Nat
  leader_symbol : String
  leader_quality : Option String
  volatility : ℚ
  volume_ratio : ℚ
deriving DecidableEq, Repr

/-- Predicate of strategy 1, ALPHA PREDATOR (src/signals.py line 51):
quality is the string ALPHA (a NaN quality compares unequal to every
string in Python) and volume momentum exceeds 1.1. -/
abbrev alphaPredatorCond (row : SnapshotRow) : Prop :=
  qualityOf row = some "ALPHA" ∧ volumeMomOf row > 11/10

/-- Record of strategy 1 (src/signals.py lines 52-59 plus the provenance
update of lines 132-142). -/
def alphaPredatorRec (row : SnapshotRow) : SignalRecord :=
  { strategy := "ALPHA_PREDATOR", signal_strength := "CRITICAL",
    action_asset := row.leader, trade_asset := "FOLLOWERS_AGGRESSIVE",
    condition := "Immediate Entry", data_timestamp := row.timestamp,
    leader_symbol := row.leader, leader_quality := qualityOf row,
    volatility := volatilityOf row, volume_ratio := volumeMomOf row }

/-- Predicate of strategy 2, VOLATILITY BREAKOUT (src/signals.py line 66):
volatility above 0.4, lag above 0.1, correlation above 0.6. -/
abbrev volBreakoutCond (row : SnapshotRow) : Prop :=
  volatilityOf row > 2/5 ∧ row.avg_lag_minutes > 1/10 ∧
    row.avg_correlation > 3/5

/-- Record of strategy 2 (src/signals.py lines 67-74). -/
def volBreakoutRec (row : SnapshotRow) : SignalRecord :=
  { strategy := "VOL_BREAKOUT", signal_strength := "HIGH",
    action_asset := row.leader, trade_asset := "FOLLOWERS",
    condition := "Breakout Catch", data_timestamp := row.timestamp,
    leader_symbol := row.leader, leader_quality := qualityOf row,
    volatility := volatilityOf row, volume_ratio := volumeMomOf row }

/-- Predicate of strategy 3, LEADER MOMENTUM (src/signals.py line 80): lag
above 0.15 and correlation above 0.55. -/
abbrev leaderMomentumCond (row : SnapshotRow) : Prop :=
  row.avg_lag_minutes > 3/20 ∧ row.avg_correlation > 11/20

/-- Record of strategy 3 (src/signals.py lines 81-88). -/
def leaderMomentumRec (row : SnapshotRow) : SignalRecord :=
  { strategy := "LEADER_MOMENTUM", signal_strength := "MEDIUM",
    action_asset := row.leader, trade_asset := "FOLLOWERS",
    condition := "Standard Scalp", data_timestamp := row.timestamp,
    leader_symbol := row.leader, leader_quality := qualityOf row,
    volatility := volatilityOf row, volume_ratio := volumeMomOf row }

/-- Predicate of strategy 4, VOLUME DIVERGENCE (src/signals.py line 95):
volume momentum above 2.0 and absolute lag below 0.5. -/
abbrev volumeLoadingCond (row : SnapshotRow) : Prop :=
  volumeMomOf row > 2 ∧ |row.avg_lag_minutes| < 1/2

/-- Record of strategy 4 (src/signals.py lines 96-103); the trade asset is
the leader itself. -/
def volumeLoadingRec (row : SnapshotRow) : SignalRecord :=
  { strategy := "VOLUME_LOADING", signal_strength := "HIGH",
    action_asset := row.leader, trade_asset := row.leader,
    condition := "Anticipate Breakout", data_timestamp := row.timestamp,
    leader_symbol := row.leader, leader_quality := qualityOf row,
    volatility := volatilityOf row, volume_ratio := volumeMomOf row }

/-- Predicate of strategy 5, LAG CATCH-UP (src/signals.py line 108): lag
below -1.0 and correlation above 0.60. -/
abbrev lagCatchupCond (row : SnapshotRow) : Prop :=
  row.avg_lag_minutes < -1 ∧ row.avg_correlation > 3/5

/-- Record of strategy 5 (src/signals.py lines 109-116). -/
def lagCatchupRec (row : SnapshotRow) : SignalRecord :=
  { strategy := "LAG_CATCHUP", signal_strength := "MEDIUM",
    action_asset := "FOLLOWERS", trade_asset := row.leader,
    condition := "Reversion", data_timestamp := row.timestamp,
    leader_symbol := row.leader, leader_quality := qualityOf row,
    volatility := volatilityOf row, volume_ratio := volumeMomOf row }

/-- Predicate of strategy 6, INSTANT SYNC (src/signals.py line 121):
absolute lag below 0.08 and correlation above 0.92. -/
abbrev instantSyncCond (row : SnapshotRow) : Prop :=
  |row.avg_lag_minutes| < 2/25 ∧ row.avg_correlation > 23/25

/-- Record of strategy 6 (src/signals.py lines 122-129). -/
def instantSyncRec (row : SnapshotRow) : SignalRecord :=
  { strategy := "INSTANT_SYNC", signal_strength := "HFT",
    action_asset := row.leader, trade_asset := "FOLLOWERS",
    condition := "HFT Execution", data_timestamp := row.timestamp,
    leader_symbol := row.leader, leader_quality := qualityOf row,
    volatility := volatilityOf row, volume_ratio := volumeMomOf row }

/-- Embedding of detect_strategies (src/signals.py lines 26-144): each of
the six independent strategy blocks appends its record to the signals list
exactly when its predicate holds, in source order; the provenance update
of lines 132-142 is folded into the record constructors. -/
def detect_strategies (row : SnapshotRow) : List SignalRecord :=
  (if alphaPredatorCond row then [alphaPredatorRec row] else []) ++
  (if volBreakoutCond row then [volBreakoutRec row] else []) ++
  (if leaderMomentumCond row then [leaderMomentumRec row] else []) ++
  (if volumeLoadingCond row then [volumeLoadingRec row] else []) ++
  (if lagCatchupCond row then [lagCatchupRec row] else []) ++
  (if instantSyncCond row then [instantSyncRec row] else [])

/-- Embedding of process_signals (src/signals.py lines 146-163): on an
empty frame return an empty frame; otherwise keep only the rows whose
timestamp equals the latest timestamp and concatenate their strategy
records. The source stable-sorts by timestamp and takes the rows equal to
the last one, which is exactly the rows carrying the maximal timestamp in
their original relative order. -/
def process_signals (rows : List SnapshotRow) : List SignalRecord :=
  match (rows.map (fun r => r.timestamp)).max? with
  | none => []
  | some lastTs =>
    (rows.filter (fun r => r.timestamp == lastTs)).flatMap detect_strategies

/-! ## Legacy signal generator (src/signal_generator.py, generate_signals lines 27-60) -/

/-- A history row as parsed by the legacy generator (src/signal_generator.py
lines 31-36). -/
structure GenRow where
  timestamp : String
  leader : String
  follower_count : Nat
  avg_correlation : ℚ
  avg_lag_minutes : ℚ
deriving DecidableEq, Repr

/-- A legacy signal row [ts, signal, asset, strength, correlation, lag]
(src/signal_generator.py line 58); the formatted reason string is not
modelled. -/
structure GenSignal where
  timestamp : String
  signal_type : String
  leader : String
  follower_count : Nat
  avg_correlation : ℚ
  avg_lag_minutes : ℚ
deriving DecidableEq, Repr

/-- Embedding of generate_signals (src/signal_generator.py lines 27-60):
an if/elif chain assigns at most one signal type per row (first matching
rule wins) and NEUTRAL rows are dropped. -/
def generate_signals (rows : List GenRow) : List GenSignal :=
  rows.flatMap (fun row =>
    let signal_type :=
      if 4 ≤ row.follower_count ∧ row.avg_correlation > 4/5 then "BUY_STRONG"
      else if 2 ≤ row.follower_count ∧ row.avg_correlation > 19/20 then
        "BUY_NICHE"
      else if 5 < row.follower_count ∧ row.avg_correlation < 1/2 then
        "SELL_WEAKNESS"
      else "NEUTRAL"
    if signal_type ≠ "NEUTRAL" then
      [⟨row.timestamp, signal_type, row.leader, row.follower_count,
        row.avg_correlation, row.avg_lag_minutes⟩]
    else [])

/-! ## Pipeline driver (src/app.py, handler lines 305-326)

The handler fetches the price table, computes the relationship candidates
and, only when some candidate exists, updates the graph, recomputes the
leader analytics and appends them to the history store. The price table
emptiness flag and the output of the correlation stage are passed in as
parameters; the graph and history store states are threaded explicitly. -/

/-- Embedding of handler (src/app.py lines 305-326), returning the final
graph and history-store states. -/
def handler (g : Graph) (history : Option (List LeaderRow))
    (dfIsEmpty : Bool) (correlations : List Rel)
    (metadata : List (String × Meta)) (now : Nat) :
    Graph × Option (List LeaderRow) :=
  if !dfIsEmpty then
    if !correlations.isEmpty then
      let g2 := update_neptune g correlations metadata now
      let leaders := get_leaders_analytics g2 now
      (g2, (update_csv_in_s3 history leaders).1)
    else (g, history)
  else (g, history)

/-! ## Lemmas about the best-lag sweeps -/

/-- One sweep step never decreases the tracked absolute correlation. -/
theorem sweepStep_fst_mono (c : Int → Option ℚ) (b : ℚ × Int) (lag : Int) :
    |b.1| ≤ |(sweepStep c b lag).1| := by
  unfold sweepStep
  cases c lag with
  | none => exact le_refl _
  | some v =>
    dsimp only
    split
    · exact le_of_lt (by assumption)
    · exact le_refl _

/-- The whole sweep never decreases the tracked absolute correlation. -/
theorem sweep_fst_mono (c : Int → Option ℚ) (ls : List Int) (b : ℚ × Int) :
    |b.1| ≤ |(ls.foldl (sweepStep c) b).1| := by
  induction ls generalizing b with
  | nil => exact le_refl _
  | cons a as ih =>
    rw [List.foldl_cons]
    exact le_trans (sweepStep_fst_mono c b a) (ih _)

/-- The final tracked absolute correlation dominates every defined
correlation of the window. -/
theorem sweep_max (c : Int → Option ℚ) (ls : List Int) (b : ℚ × Int) :
    ∀ L ∈ ls, ∀ v, c L = some v → |v| ≤ |(ls.foldl (sweepStep c) b).1| := by
  induction ls generalizing b with
  | nil => intro L hL; cases hL
  | cons a as ih =>
    intro L hL v hv
    rw [List.foldl_cons]
    rcases List.mem_cons.mp hL with h | h
    · subst h
      refine le_trans ?_ (sweep_fst_mono c as (sweepStep c b L))
      unfold sweepStep
      rw [hv]
      dsimp only
      split
      · exact le_refl _
      · exact le_of_not_lt (by assumption)
    · exact ih _ L h v hv

/-- One sweep step keeps the tracked lag or moves it to the current lag. -/
theorem sweepStep_snd (c : Int → Option ℚ) (b : ℚ × Int) (lag : Int) :
    (sweepStep c b lag).2 = b.2 ∨ (sweepStep c b lag).2 = lag := by
  unfold sweepStep
  cases c lag with
  | none => exact Or.inl rfl
  | some v =>
    dsimp only
    split
    · exact Or.inr rfl
    · exact Or.inl rfl

/-- The final tracked lag is the initial lag or a lag of the window. -/
theorem sweep_lag_cases (c : Int → Option ℚ) (ls : List Int) (b : ℚ × Int) :
    (ls.foldl (sweepStep c) b).2 = b.2 ∨ (ls.foldl (sweepStep c) b).2 ∈ ls := by
  induction ls generalizing b with
  | nil => exact Or.inl rfl
  | cons a as ih =>
    rw [List.foldl_cons]
    rcases ih (sweepStep c b a) with h | h
    · rcases sweepStep_snd c b a with h2 | h2
      · exact Or.inl (h.trans h2)
      · exact Or.inr (by rw [h, h2]; exact List.mem_cons_self a as)
    · exact Or.inr (List.mem_cons_of_mem a h)

/-- A sweep over lags none of which strictly improves the best leaves the
best unchanged. -/
theorem sweep_const (c : Int → Option ℚ) (ls : List Int) (b : ℚ × Int)
    (h : ∀ L ∈ ls, ∀ v, c L = some v → ¬ |b.1| < |v|) :
    ls.foldl (sweepStep c) b = b := by
  induction ls with
  | nil => rfl
  | cons a as ih =>
    rw [List.foldl_cons]
    have hstep : sweepStep c b a = b := by
      unfold sweepStep
      cases hc : c a with
      | none => rfl
      | some v =>
        dsimp only
        rw [if_neg (h a (List.mem_cons_self a as) v hc)]
    rw [hstep]
    exact ih (fun L hL v hv => h L (List.mem_cons_of_mem a hL) v hv)

/-- When one lag of the window carries a defined correlation whose
absolute value strictly dominates the initial best and every other defined
correlation, the sweep returns exactly that lag and value. -/
theorem sweep_unique (c : Int → Option ℚ) (ls : List Int) (b : ℚ × Int)
    (L0 : Int) (v0 : ℚ) (hmem : L0 ∈ ls) (hc : c L0 = some v0)
    (hb : |b.1| < |v0|)
    (hmax : ∀ L ∈ ls, L ≠ L0 → ∀ v, c L = some v → |v| < |v0|) :
    ls.foldl (sweepStep c) b = (v0, L0) := by
  induction ls generalizing b with
  | nil => cases hmem
  | cons a as ih =>
    rw [List.foldl_cons]
    by_cases ha : a = L0
    · subst ha
      have hstep : sweepStep c b a = (v0, a) := by
        unfold sweepStep
        rw [hc]
        dsimp only
        rw [if_pos hb]
      rw [hstep]
      apply sweep_const
      intro L hL v hv
      by_cases hL0 : L = a
      · subst hL0
        rw [hc] at hv
        injection hv with hv
        subst hv
        exact lt_irrefl _
      · exact not_lt_of_gt (hmax L (List.mem_cons_of_mem a hL) hL0 v hv)
    · have hmem2 : L0 ∈ as := by
        rcases List.mem_cons.mp hmem with h | h
        · exact absurd h.symm ha
        · exact h
      have hb2 : |(sweepStep c b a).1| < |v0| := by
        unfold sweepStep
        cases hca : c a with
        | none => exact hb
        | some v =>
          dsimp only
          split
          · exact hmax a (List.mem_cons_self a as) ha v hca
          · exact hb
      exact ih (sweepStep c b a) hmem2 hb2
        (fun L hL hne v hv => hmax L (List.mem_cons_of_mem a hL) hne v hv)

/-- Membership characterization of the calculate_correlations lag window. -/
theorem mem_appLags (L : Int) : L ∈ appLags ↔ L ≠ 0 ∧ -15 ≤ L ∧ L ≤ 15 := by
  constructor
  · intro hL
    unfold appLags at hL
    rw [List.mem_filter] at hL
    obtain ⟨hm, h0⟩ := hL
    rw [List.mem_map] at hm
    obtain ⟨i, hi, rfl⟩ := hm
    rw [List.mem_range] at hi
    exact ⟨by simpa using h0, by omega, by omega⟩
  · rintro ⟨h0, h1, h2⟩
    unfold appLags
    rw [List.mem_filter]
    refine ⟨?_, by simpa using h0⟩
    rw [List.mem_map]
    exact ⟨(L + 15).toNat, by rw [List.mem_range]; omega, by omega⟩

/-- Membership characterization of the best_lag_minutes lag window. -/
theorem mem_lamLags (L : Int) : L ∈ lamLags ↔ -60 ≤ L ∧ L ≤ 60 := by
  constructor
  · intro hL
    unfold lamLags at hL
    rw [List.mem_map] at hL
    obtain ⟨i, hi, rfl⟩ := hL
    rw [List.mem_range] at hi
    exact ⟨by omega, by omega⟩
  · rintro ⟨h1, h2⟩
    unfold lamLags
    rw [List.mem_map]
    exact ⟨(L + 60).toNat, by rw [List.mem_range]; omega, by omega⟩

/-- An undefined correlation leaves the best of best_lag_minutes
unchanged. -/
theorem lamStep_none (c : Int → Option ℚ) (b : Int × Option ℚ) (lag : Int)
    (h : c lag = none) : lamStep c b lag = b := by
  unfold lamStep
  rw [h]

/-- A defined correlation replaces an undefined best of best_lag_minutes. -/
theorem lamStep_some_none (c : Int → Option ℚ) (b : Int × Option ℚ)
    (lag : Int) (v : ℚ) (hc : c lag = some v) (hb : b.2 = none) :
    lamStep c b lag = (lag, some v) := by
  unfold lamStep
  rw [hc, hb]

/-- A defined correlation replaces a defined best of best_lag_minutes
exactly when its absolute value is strictly greater. -/
theorem lamStep_some_some (c : Int → Option ℚ) (b : Int × Option ℚ)
    (lag : Int) (v bv : ℚ) (hc : c lag = some v) (hb : b.2 = some bv) :
    lamStep c b lag = if |bv| < |v| then (lag, some v) else b := by
  unfold lamStep
  rw [hc, hb]

/-- Once the tracked best of best_lag_minutes holds a value, it keeps
holding one of no smaller absolute value. -/
theorem lam_val_mono (c : Int → Option ℚ) (ls : List Int) :
    ∀ (b : Int × Option ℚ) (bv : ℚ), b.2 = some bv →
      ∃ bw, (ls.foldl (lamStep c) b).2 = some bw ∧ |bv| ≤ |bw| := by
  induction ls with
  | nil => exact fun b bv h => ⟨bv, h, le_refl _⟩
  | cons a as ih =>
    intro b bv h
    rw [List.foldl_cons]
    cases hca : c a with
    | none =>
      rw [lamStep_none c b a hca]
      exact ih b bv h
    | some v =>
      rw [lamStep_some_some c b a v bv hca h]
      split
      · obtain ⟨bw, hbw, hle⟩ := ih (a, some v) v rfl
        exact ⟨bw, hbw, le_trans (le_of_lt (by assumption)) hle⟩
      · exact ih b bv h

/-- The best of best_lag_minutes is defined as soon as the window holds a
defined correlation (or the initial best was defined). -/
theorem lam_isSome (c : Int → Option ℚ) (ls : List Int) :
    ∀ b : Int × Option ℚ, (b.2.isSome ∨ ∃ L ∈ ls, (c L).isSome) →
      ((ls.foldl (lamStep c) b).2).isSome := by
  induction ls with
  | nil =>
    intro b h
    rcases h with h | ⟨L, hL, -⟩
    · exact h
    · cases hL
  | cons a as ih =>
    intro b h
    rw [List.foldl_cons]
    rcases h with h | ⟨L, hL, hsome⟩
    · have hstep : ∃ u, (lamStep c b a).2 = some u := by
        obtain ⟨bv, hbv⟩ := Option.isSome_iff_exists.mp h
        cases hca : c a with
        | none => exact ⟨bv, by rw [lamStep_none c b a hca]; exact hbv⟩
        | some v =>
          rw [lamStep_some_some c b a v bv hca hbv]
          split
          · exact ⟨v, rfl⟩
          · exact ⟨bv, hbv⟩
      obtain ⟨u, hu⟩ := hstep
      obtain ⟨bw, hbw, -⟩ := lam_val_mono c as (lamStep c b a) u hu
      rw [hbw]
      rfl
    · rcases List.mem_cons.mp hL with hLa | hLa
      · subst hLa
        obtain ⟨v, hv⟩ := Option.isSome_iff_exists.mp hsome
        apply ih
        left
        cases hb2 : b.2 with
        | none => rw [lamStep_some_none c b L v hv hb2]; rfl
        | some bu =>
          rw [lamStep_some_some c b L v bu hv hb2]
          split
          · rfl
          · rw [hb2]; rfl
      · exact ih (lamStep c b a) (Or.inr ⟨L, hLa, hsome⟩)

/-- The final best value of best_lag_minutes dominates every defined
correlation of the window. -/
theorem lam_max (c : Int → Option ℚ) (ls : List Int) :
    ∀ b : Int × Option ℚ, ∀ L ∈ ls, ∀ v, c L = some v →
      ∀ bw, (ls.foldl (lamStep c) b).2 = some bw → |v| ≤ |bw| := by
  induction ls with
  | nil => intro b L hL; cases hL
  | cons a as ih =>
    intro b L hL v hv bw hbw
    rw [List.foldl_cons] at hbw
    rcases List.mem_cons.mp hL with hLa | hLa
    · subst hLa
      have hstep : ∃ u, (lamStep c b L).2 = some u ∧ |v| ≤ |u| := by
        cases hb2 : b.2 with
        | none => exact ⟨v, by rw [lamStep_some_none c b L v hv hb2], le_refl _⟩
        | some bu =>
          rw [lamStep_some_some c b L v bu hv hb2]
          split
          · exact ⟨v, rfl, le_refl _⟩
          · exact ⟨bu, by rw [hb2], le_of_not_lt (by assumption)⟩
      obtain ⟨u, hu, hvu⟩ := hstep
      obtain ⟨bw2, hbw2, hle⟩ := lam_val_mono c as (lamStep c b L) u hu
      rw [hbw] at hbw2
      injection hbw2 with hbw2
      subst hbw2
      exact le_trans hvu hle
    · exact ih (lamStep c b a) L hLa v hv bw hbw

/-- One step of best_lag_minutes keeps the tracked lag or moves it to the
current lag. -/
theorem lamStep_fst (c : Int → Option ℚ) (b : Int × Option ℚ) (lag : Int) :
    (lamStep c b lag).1 = b.1 ∨ (lamStep c b lag).1 = lag := by
  unfold lamStep
  cases c lag with
  | none => exact Or.inl rfl
  | some v =>
    dsimp only
    cases b.2 with
    | none => exact Or.inr rfl
    | some bv =>
      dsimp only
      split
      · exact Or.inr rfl
      · exact Or.inl rfl

/-- The final lag of best_lag_minutes is the initial lag or a lag of the
window. -/
theorem lam_lag_cases (c : Int → Option ℚ) (ls : List Int) :
    ∀ b : Int × Option ℚ,
      (ls.foldl (lamStep c) b).1 = b.1 ∨ (ls.foldl (lamStep c) b).1 ∈ ls := by
  induction ls with
  | nil => exact fun b => Or.inl rfl
  | cons a as ih =>
    intro b
    rw [List.foldl_cons]
    rcases ih (lamStep c b a) with h | h
    · rcases lamStep_fst c b a with h2 | h2
      · exact Or.inl (h.trans h2)
      · exact Or.inr (by rw [h, h2]; exact List.mem_cons_self a as)
    · exact Or.inr (List.mem_cons_of_mem a h)

/-! ## Lemmas about the edge upsert and the history store -/

/-- A second upsert of the same ordered pair fully absorbs the first: the
edge list after two upserts equals the edge list after the second alone. -/
theorem upsert_absorb (es : List Edge) (l f : String) (c1 c2 : ℚ)
    (g1 g2 : Int) (t1 t2 : Nat) :
    upsertRelationship (upsertRelationship es l f c1 g1 t1) l f c2 g2 t2 =
      upsertRelationship es l f c2 g2 t2 := by
  unfold upsertRelationship dropEdge
  simp [List.filter_append, List.filter_filter, Bool.and_comm]

/-- After an upsert, the edges of the ordered pair are exactly the one
fresh edge. -/
theorem filter_upsert (es : List Edge) (l f : String) (c : ℚ) (g : Int)
    (t : Nat) :
    (upsertRelationship es l f c g t).filter
      (fun e => e.leader == l && e.follower == f) = [⟨l, f, c, g, t⟩] := by
  unfold upsertRelationship dropEdge
  simp [List.filter_append, List.filter_filter]

/-- With 4990 existing rows and 20 fresh rows the history store keeps the
last 5000 of the 5010 combined rows, dropping the 10 oldest. -/
theorem update_csv_overflow {α : Type} (e n : List α)
    (he : e.length = 4990) (hn : n.length = 20) :
    update_csv_in_s3 (some e) n = (some (e.drop 10 ++ n), true) := by
  have hne : n.isEmpty = false := by
    cases n with
    | nil => simp at hn
    | cons x xs => rfl
  unfold update_csv_in_s3
  rw [hne]
  simp only [Bool.false_eq_true, if_false]
  rw [List.length_append, he, hn]
  rw [if_pos (by norm_num)]
  rw [List.drop_append_eq_append_drop]
  rw [he]
  norm_num

/-! ## Claims -/

/-- C2 counterexample: the classifier applied to influence 3 and
independence 1 does not return STRONG; the ALPHA branch fails on the
independence requirement and the STRONG branch requires influence at
least 5, so the default WEAK stands. -/
theorem claim2_counterexample : classify 3 1 ≠ "STRONG" := by decide

/-- C2 amended: for every asset with influence_score 3 and
independence_score 1, the classifier returns WEAK. -/
theorem claim2_amended : classify 3 1 = "WEAK" := by decide

/-- C3: for all non-negative integer scores, the classifier returns ALPHA
exactly when influence is at least 3 and independence is 0, otherwise
STRONG exactly when influence is at least 5, otherwise WEAK (first match
wins, in that priority order); in particular 3/0 gives ALPHA, 5/1 gives
STRONG and 2/0 gives WEAK. -/
theorem claim3_classifier_priority (influence independence : Nat) :
    (classify influence independence = "ALPHA" ↔
      3 ≤ influence ∧ independence = 0) ∧
    (classify influence independence = "STRONG" ↔
      ¬(3 ≤ influence ∧ independence = 0) ∧ 5 ≤ influence) ∧
    (classify influence independence = "WEAK" ↔
      ¬(3 ≤ influence ∧ independence = 0) ∧ ¬5 ≤ influence) ∧
    classify 3 0 = "ALPHA" ∧ classify 5 1 = "STRONG" ∧
    classify 2 0 = "WEAK" := by
  refine ⟨?_, ?_, ?_, by decide, by decide, by decide⟩ <;>
  · unfold classify
    split_ifs with h1 h2 <;> simp_all

/-- C4: two upserts of the same ordered pair leave the edge list of the
second upsert alone, the pair then carries exactly one edge holding the
attributes of the second call, and a repeated identical upsert is
idempotent. -/
theorem claim4_upsert_single_edge (es : List Edge) (l f : String)
    (c1 c2 : ℚ) (g1 g2 : Int) (t1 t2 : Nat) :
    upsertRelationship (upsertRelationship es l f c1 g1 t1) l f c2 g2 t2 =
      upsertRelationship es l f c2 g2 t2 ∧
    (upsertRelationship (upsertRelationship es l f c1 g1 t1) l f c2 g2
        t2).filter (fun e => e.leader == l && e.follower == f) =
      [⟨l, f, c2, g2, t2⟩] ∧
    upsertRelationship (upsertRelationship es l f c1 g1 t1) l f c1 g1 t1 =
      upsertRelationship es l f c1 g1 t1 := by
  refine ⟨upsert_absorb es l f c1 c2 g1 g2 t1 t2, ?_,
    upsert_absorb es l f c1 c1 g1 g1 t1 t1⟩
  rw [upsert_absorb es l f c1 c2 g1 g2 t1 t2]
  exact filter_upsert es l f c2 g2 t2

/-- C7 counterexample: with 4990 stored rows and 20 appended rows the
store code keeps tail(5000) of the 5010 combined rows, which removes the
10 oldest rows, not the 20 oldest the claim states (removing 20 would
leave 4990 rows, contradicting the 5000 the claim also states). -/
theorem claim7_counterexample :
    ¬ update_csv_in_s3 (some (List.replicate 4990 (0 : Nat)))
        (List.replicate 20 1) =
      (some ((List.replicate 4990 (0 : Nat)).drop 20 ++ List.replicate 20 1),
        true) := by
  intro h
  rw [update_csv_overflow _ _ (List.length_replicate 4990 0)
    (List.length_replicate 20 1)] at h
  have hlen := congrArg
    (fun p : Option (List Nat) × Bool => (p.1.getD []).length) h
  simp only [Option.getD_some, List.length_append, List.length_drop,
    List.length_replicate] at hlen
  omega

/-- C7 amended: appending 20 rows to a history store holding 4990 rows
leaves exactly 5000 rows, the 10 oldest rows (by storage position) having
been removed. -/
theorem claim7_retention {α : Type} (e n : List α)
    (he : e.length = 4990) (hn : n.length = 20) :
    update_csv_in_s3 (some e) n = (some (e.drop 10 ++ n), true) ∧
    (e.drop 10 ++ n).length = 5000 := by
  refine ⟨update_csv_overflow e n he hn, ?_⟩
  rw [List.length_append, List.length_drop, he, hn]

/-- C7 witness: the amended retention theorem applied to a concrete store
of 4990 rows and 20 fresh rows. -/
theorem claim7_witness :
    update_csv_in_s3 (some (List.replicate 4990 (0 : Nat)))
        (List.replicate 20 1) =
      (some ((List.replicate 4990 (0 : Nat)).drop 10 ++ List.replicate 20 1),
        true) ∧
    ((List.replicate 4990 (0 : Nat)).drop 10 ++
      List.replicate 20 1).length = 5000 :=
  claim7_retention (List.replicate 4990 0) (List.replicate 20 1)
    (List.length_replicate 4990 0) (List.length_replicate 20 1)

/-- C5: whenever the correlation oracle is defined on at least one
permitted lag, the best-lag search of calculate_correlations returns a lag
inside [-15, 15] whose tracked correlation magnitude dominates the
magnitude at every permitted lag, and the best-lag search of
best_lag_minutes returns a lag inside [-60, 60] together with a defined
correlation whose magnitude dominates the magnitude at every lag of its
window (lag 0 included there). -/
theorem claim5_best_lag_maximum (c : Int → Option ℚ)
    (_hApp : ∃ L ∈ appLags, (c L).isSome)
    (hLam : ∃ L ∈ lamLags, (c L).isSome) :
    (-15 ≤ (sweepApp c).2 ∧ (sweepApp c).2 ≤ 15 ∧
      ∀ L ∈ appLags, ∀ v, c L = some v → |v| ≤ |(sweepApp c).1|) ∧
    (-60 ≤ (best_lag_minutes c).1 ∧ (best_lag_minutes c).1 ≤ 60 ∧
      ∃ bv, (best_lag_minutes c).2 = some bv ∧
        ∀ L ∈ lamLags, ∀ v, c L = some v → |v| ≤ |bv|) := by
  constructor
  · have hbounds : -15 ≤ (sweepApp c).2 ∧ (sweepApp c).2 ≤ 15 := by
      rcases sweep_lag_cases c appLags (0, 0) with h | h
      · unfold sweepApp
        rw [h]
        exact ⟨by norm_num, by norm_num⟩
      · obtain ⟨-, h1, h2⟩ := (mem_appLags _).mp h
        exact ⟨h1, h2⟩
    exact ⟨hbounds.1, hbounds.2, sweep_max c appLags (0, 0)⟩
  · have hsome : ((best_lag_minutes c).2).isSome :=
      lam_isSome c lamLags (0, none) (Or.inr hLam)
    obtain ⟨bv, hbv⟩ := Option.isSome_iff_exists.mp hsome
    have hbounds : -60 ≤ (best_lag_minutes c).1 ∧
        (best_lag_minutes c).1 ≤ 60 := by
      rcases lam_lag_cases c lamLags (0, none) with h | h
      · unfold best_lag_minutes
        rw [h]
        exact ⟨by norm_num, by norm_num⟩
      · exact (mem_lamLags _).mp h
    exact ⟨hbounds.1, hbounds.2, bv, hbv,
      fun L hL v hv => lam_max c lamLags (0, none) L hL v hv bv hbv⟩

/-- A concrete correlation oracle defined at the single lag 1, used to
instantiate the best-lag maximum theorem. -/
def cWit : Int → Option ℚ := fun l => if l = 1 then some (1/2) else none

/-- C5 witness: the best-lag maximum theorem applied to the oracle that is
defined exactly at lag 1. -/
theorem claim5_witness :
    (-15 ≤ (sweepApp cWit).2 ∧ (sweepApp cWit).2 ≤ 15 ∧
      ∀ L ∈ appLags, ∀ v, cWit L = some v → |v| ≤ |(sweepApp cWit).1|) ∧
    (-60 ≤ (best_lag_minutes cWit).1 ∧ (best_lag_minutes cWit).1 ≤ 60 ∧
      ∃ bv, (best_lag_minutes cWit).2 = some bv ∧
        ∀ L ∈ lamLags, ∀ v, cWit L = some v → |v| ≤ |bv|) :=
  claim5_best_lag_maximum cWit ⟨1, by decide, rfl⟩ ⟨1, by decide, rfl⟩

/-- C8 amended: when the oracle of pair (A,B) attains a positive maximal
correlation magnitude at a unique permitted lag, the sweep for (A,B)
returns exactly that lag and value, and the sweep for the reversed pair
(B,A) — whose per-lag correlation is the oracle at the negated lag, since
the Pearson correlation of B against A shifted by L equals that of A
against B shifted by -L over the same sample overlap — returns the negated
lag with the same correlation value. -/
theorem claim8_symmetry_unique (c : Int → Option ℚ) (L0 : Int) (v0 : ℚ)
    (hmem : L0 ∈ appLags) (hc : c L0 = some v0) (h0 : 0 < |v0|)
    (hmax : ∀ L ∈ appLags, L ≠ L0 → ∀ v, c L = some v → |v| < |v0|) :
    sweepApp c = (v0, L0) ∧ (sweepApp fun l => c (-l)) = (v0, -L0) := by
  constructor
  · exact sweep_unique c appLags (0, 0) L0 v0 hmem hc (by simpa using h0) hmax
  · apply sweep_unique (fun l => c (-l)) appLags (0, 0) (-L0) v0
    · obtain ⟨h1, h2, h3⟩ := (mem_appLags L0).mp hmem
      exact (mem_appLags (-L0)).mpr ⟨by omega, by omega, by omega⟩
    · rw [neg_neg]
      exact hc
    · simpa using h0
    · intro L hL hne v hv
      apply hmax (-L) ?_ ?_ v hv
      · obtain ⟨h1, h2, h3⟩ := (mem_appLags L).mp hL
        exact (mem_appLags (-L)).mpr ⟨by omega, by omega, by omega⟩
      · intro heq
        exact hne (by omega)

/-- A concrete correlation oracle defined at the single lag 2, used to
instantiate the unique-maximum symmetry theorem. -/
def cWit8 : Int → Option ℚ := fun l => if l = 2 then some (3/4) else none

/-- C8 witness: the unique-maximum symmetry theorem applied to the oracle
that is defined exactly at lag 2, giving best lag 2 for the pair and best
lag -2 with the same correlation for the reversed pair. -/
theorem claim8_witness :
    sweepApp cWit8 = (3/4, 2) ∧
    (sweepApp fun l => cWit8 (-l)) = (3/4, -2) :=
  claim8_symmetry_unique cWit8 2 (3/4) (by decide) rfl
    (abs_pos.mpr (by norm_num))
    (by
      intro L hL hne v hv
      simp only [cWit8] at hv
      rw [if_neg hne] at hv
      simp at hv)

/-- A correlation oracle with a tie: the maximal magnitude 4/5 is attained
at both lag 1 and lag 2. Such values arise from an aligned price table
with periodic columns, where several shifts give the same correlation. -/
def cTie : Int → Option ℚ := fun l => if l = 1 ∨ l = 2 then some (4/5) else none

/-- C8 counterexample: under the tie at lags 1 and 2, the ascending-lag
first-win tie-break returns lag 1 for the pair, but lag -2 for the
reversed pair — the oracle of the reversed pair is the original oracle at
the negated lag — so the claimed relation lag_BA = -lag_AB fails. -/
theorem claim8_counterexample :
    sweepApp cTie = (4/5, 1) ∧ (sweepApp fun l => cTie (-l)) = (4/5, -2) ∧
    (sweepApp fun l => cTie (-l)).2 ≠ -(sweepApp cTie).2 := by
  refine ⟨?_, ?_, ?_⟩ <;>
    norm_num [sweepApp, appLags, sweepStep, cTie, List.range_succ]

/-- Membership in a conditional singleton, forward direction. -/
theorem mem_if_singleton {α : Type} {p : Prop} [Decidable p] (h : p)
    (x : α) : x ∈ if p then [x] else [] := by
  rw [if_pos h]
  exact List.mem_singleton_self x

/-- Membership in a conditional singleton forces equality with the
singleton element. -/
theorem mem_ite_singleton_cases {α : Type} {p : Prop} [Decidable p]
    {x y : α} (h : x ∈ if p then [y] else []) : x = y := by
  by_cases hp : p
  · rw [if_pos hp] at h
    exact List.mem_singleton.mp h
  · rw [if_neg hp] at h
    cases h

/-- A conditional singleton is a sublist of the plain singleton. -/
theorem ite_singleton_sublist {α : Type} {p : Prop} [Decidable p] (x : α) :
    List.Sublist (if p then [x] else []) [x] := by
  split
  · exact List.Sublist.refl _
  · exact List.nil_sublist _

/-- A flatMap all of whose pieces are empty is empty. -/
theorem flatMap_eq_nil_of {α β : Type} (l : List α) (f : α → List β)
    (h : ∀ a ∈ l, f a = []) : l.flatMap f = [] := by
  induction l with
  | nil => rfl
  | cons a as ih =>
    rw [List.flatMap_cons, h a (List.mem_cons_self a as), List.nil_append]
    exact ih (fun x hx => h x (List.mem_cons_of_mem a hx))

/-- C1 counterexample: on the empty snapshot row set the evaluator returns
no record at all — there is no sentinel NO_SIGNALS_DETECTED record
anywhere in the code — so the claim that exactly one sentinel record is
emitted fails already on the empty input. -/
theorem claim1_counterexample :
    process_signals [] = [] ∧
    ¬ ∃ r : SignalRecord, process_signals [] = [r] ∧
        r.strategy = "NO_SIGNALS_DETECTED" := by
  refine ⟨rfl, ?_⟩
  rintro ⟨r, hr, -⟩
  rw [show process_signals [] = ([] : List SignalRecord) from rfl] at hr
  simp at hr

/-- C1 amended: when zero rules fire on every row of the snapshot set
(including the empty set), the evaluator returns the empty record set and
the history sink write is skipped, leaving the signal store untouched. -/
theorem claim1_no_sentinel (rows : List SnapshotRow)
    (h : ∀ row ∈ rows, detect_strategies row = [])
    (existing : Option (List SignalRecord)) :
    process_signals rows = [] ∧
    update_signals_csv existing (process_signals rows) = (existing, false) := by
  have hps : process_signals rows = [] := by
    unfold process_signals
    cases hmax : (rows.map (fun r => r.timestamp)).max? with
    | none => rfl
    | some lastTs =>
      dsimp only
      exact flatMap_eq_nil_of _ _
        (fun r hr => h r (List.mem_of_mem_filter hr))
  rw [hps]
  exact ⟨rfl, rfl⟩

/-- A snapshot row carrying no metadata on which none of the six strategy
predicates holds. -/
def quietRow : SnapshotRow :=
  { timestamp := 1, leader := "BTC", follower_count := 1,
    avg_correlation := 0, avg_lag_minutes := 0, leader_quality := none,
    volatility_score := none, volume_momentum := none,
    influence_score := none }

/-- C1 witness: the amended no-sentinel theorem applied to the singleton
quiet row set and a concrete existing store. -/
theorem claim1_witness :
    process_signals [quietRow] = [] ∧
    update_signals_csv (some ([] : List SignalRecord))
      (process_signals [quietRow]) =
      (some ([] : List SignalRecord), false) :=
  claim1_no_sentinel [quietRow]
    (by
      intro row hrow
      rw [List.mem_singleton] at hrow
      subst hrow
      norm_num [detect_strategies, quietRow, qualityOf, volatilityOf,
        volumeMomOf, alphaPredatorCond, volBreakoutCond, leaderMomentumCond,
        volumeLoadingCond, lagCatchupCond, instantSyncCond])
    (some [])

/-- C6 amended: in detect_strategies every rule whose predicate holds
contributes its record to the output — several rules may fire on the same
row — and the output is a sublist of the six records in the fixed rule
order. The legacy generate_signals of src/signal_generator.py is
first-match-wins and is excluded (see its counterexample). -/
theorem claim6_rules_independent (row : SnapshotRow) :
    (alphaPredatorCond row → alphaPredatorRec row ∈ detect_strategies row) ∧
    (volBreakoutCond row → volBreakoutRec row ∈ detect_strategies row) ∧
    (leaderMomentumCond row → leaderMomentumRec row ∈ detect_strategies row) ∧
    (volumeLoadingCond row → volumeLoadingRec row ∈ detect_strategies row) ∧
    (lagCatchupCond row → lagCatchupRec row ∈ detect_strategies row) ∧
    (instantSyncCond row → instantSyncRec row ∈ detect_strategies row) ∧
    List.Sublist (detect_strategies row)
      [alphaPredatorRec row, volBreakoutRec row, leaderMomentumRec row,
        volumeLoadingRec row, lagCatchupRec row, instantSyncRec row] := by
  unfold detect_strategies
  refine ⟨?_, ?_, ?_, ?_, ?_, ?_, ?_⟩
  · intro h
    exact List.mem_append_left _ (List.mem_append_left _
      (List.mem_append_left _ (List.mem_append_left _
        (List.mem_append_left _ (mem_if_singleton h _)))))
  · intro h
    exact List.mem_append_left _ (List.mem_append_left _
      (List.mem_append_left _ (List.mem_append_left _
        (List.mem_append_right _ (mem_if_singleton h _)))))
  · intro h
    exact List.mem_append_left _ (List.mem_append_left _
      (List.mem_append_left _
        (List.mem_append_right _ (mem_if_singleton h _))))
  · intro h
    exact List.mem_append_left _ (List.mem_append_left _
      (List.mem_append_right _ (mem_if_singleton h _)))
  · intro h
    exact List.mem_append_left _
      (List.mem_append_right _ (mem_if_singleton h _))
  · intro h
    exact List.mem_append_right _ (mem_if_singleton h _)
  · show List.Sublist _ ((((([alphaPredatorRec row] ++ [volBreakoutRec row])
      ++ [leaderMomentumRec row]) ++ [volumeLoadingRec row]) ++
        [lagCatchupRec row]) ++ [instantSyncRec row])
    exact List.Sublist.append
      (List.Sublist.append
        (List.Sublist.append
          (List.Sublist.append
            (List.Sublist.append (ite_singleton_sublist _)
              (ite_singleton_sublist _))
            (ite_singleton_sublist _))
          (ite_singleton_sublist _))
        (ite_singleton_sublist _))
      (ite_singleton_sublist _)

/-- A snapshot row on which both the ALPHA PREDATOR predicate and the
LEADER MOMENTUM predicate hold. -/
def twoFireRow : SnapshotRow :=
  { timestamp := 5, leader := "BTC", follower_count := 4,
    avg_correlation := 9/10, avg_lag_minutes := 1,
    leader_quality := some (some "ALPHA"), volatility_score := some 0,
    volume_momentum := some (6/5), influence_score := some 4 }

/-- C6 witness: on the two-fire row, both firing rules contribute their
records to the evaluator output. -/
theorem claim6_witness :
    alphaPredatorRec twoFireRow ∈ detect_strategies twoFireRow ∧
    leaderMomentumRec twoFireRow ∈ detect_strategies twoFireRow :=
  ⟨(claim6_rules_independent twoFireRow).1
      (by norm_num [alphaPredatorCond, qualityOf, volumeMomOf, twoFireRow]),
    (claim6_rules_independent twoFireRow).2.2.1
      (by norm_num [leaderMomentumCond, twoFireRow])⟩

/-- A legacy-generator row on which both the BUY_STRONG predicate and the
BUY_NICHE predicate hold. -/
def nicheRow : GenRow :=
  { timestamp := "t0", leader := "BTC", follower_count := 6,
    avg_correlation := 24/25, avg_lag_minutes := 0 }

/-- C6 counterexample: on a row satisfying both the BUY_STRONG predicate
(followers at least 4, correlation above 0.80) and the BUY_NICHE predicate
(followers at least 2, correlation above 0.95), the legacy generate_signals
emits only the first matching record — the if/elif chain is
first-match-wins, so not every rule whose predicate holds contributes its
record. -/
theorem claim6_counterexample :
    (4 ≤ nicheRow.follower_count ∧ nicheRow.avg_correlation > 4/5) ∧
    (2 ≤ nicheRow.follower_count ∧ nicheRow.avg_correlation > 19/20) ∧
    generate_signals [nicheRow] =
      [⟨"t0", "BUY_STRONG", "BTC", 6, 24/25, 0⟩] ∧
    ∀ s ∈ generate_signals [nicheRow], s.signal_type ≠ "BUY_NICHE" := by
  have hgen : generate_signals [nicheRow] =
      [⟨"t0", "BUY_STRONG", "BTC", 6, 24/25, 0⟩] := by
    norm_num [generate_signals, nicheRow]
    decide
  refine ⟨⟨by norm_num [nicheRow], by norm_num [nicheRow]⟩,
    ⟨by norm_num [nicheRow], by norm_num [nicheRow]⟩, hgen, ?_⟩
  intro s hs
  rw [hgen, List.mem_singleton] at hs
  subst hs
  decide

/-- A snapshot row whose leader_quality column is present but holds NaN
(modelled as some none) and whose other metadata columns are absent. -/
def nanQualityRow : SnapshotRow :=
  { timestamp := 2, leader := "SOL", follower_count := 3,
    avg_correlation := 9/10, avg_lag_minutes := 1,
    leader_quality := some none, volatility_score := none,
    volume_momentum := none, influence_score := none }

/-- C9 counterexample: on a row whose leader_quality column is present but
holds NaN, line 41 of src/signals.py keeps the NaN value — its guard is
only on column presence, with no pd.isna check, unlike the three numeric
columns — so the WEAK default the claim states for the NaN case is not
substituted. -/
theorem claim9_counterexample :
    nanQualityRow.leader_quality = some none ∧
    qualityOf nanQualityRow ≠ some "WEAK" := by
  refine ⟨rfl, ?_⟩
  intro h
  simp [qualityOf, nanQualityRow] at h

/-- C9 amended: the three numeric metadata fields default to 0.0, 1.0 and
the follower count when absent or NaN; the quality defaults to WEAK only
when its column is absent, while a present NaN quality is kept as NaN.
In both the absent and the NaN quality case, the quality is not the
string ALPHA, so the ALPHA PREDATOR rule can never fire and no output
record carries that strategy. -/
theorem claim9_missing_metadata_defaults (row : SnapshotRow)
    (hv : row.volatility_score = none) (hm : row.volume_momentum = none)
    (hi : row.influence_score = none) :
    volatilityOf row = 0 ∧ volumeMomOf row = 1 ∧
    influenceOf row = row.follower_count ∧
    (row.leader_quality = none → qualityOf row = some "WEAK") ∧
    (row.leader_quality = some none → qualityOf row = none) ∧
    (row.leader_quality = none ∨ row.leader_quality = some none →
      ∀ r ∈ detect_strategies row, r.strategy ≠ "ALPHA_PREDATOR") := by
  refine ⟨by rw [volatilityOf, hv]; rfl, by rw [volumeMomOf, hm]; rfl,
    by rw [influenceOf, hi]; rfl,
    ?_, ?_, ?_⟩
  · intro hq
    simp [qualityOf, hq]
  · intro hq
    simp [qualityOf, hq]
  · intro hq r hr
    have hnp : ¬ alphaPredatorCond row := by
      intro hcond
      have h1 := hcond.1
      rcases hq with hq | hq <;> simp [qualityOf, hq] at h1
    unfold detect_strategies at hr
    rw [if_neg hnp, List.nil_append] at hr
    rcases List.mem_append.mp hr with hr | h6
    · rcases List.mem_append.mp hr with hr | h5
      · rcases List.mem_append.mp hr with hr | h4
        · rcases List.mem_append.mp hr with h2 | h3
          · rw [mem_ite_singleton_cases h2]
            simp [volBreakoutRec]
          · rw [mem_ite_singleton_cases h3]
            simp [leaderMomentumRec]
        · rw [mem_ite_singleton_cases h4]
          simp [volumeLoadingRec]
      · rw [mem_ite_singleton_cases h5]
        simp [lagCatchupRec]
    · rw [mem_ite_singleton_cases h6]
      simp [instantSyncRec]

/-- A snapshot row with no metadata columns on which the LEADER MOMENTUM
rule fires. -/
def legacyRow : SnapshotRow :=
  { timestamp := 3, leader := "ETH", follower_count := 7,
    avg_correlation := 9/10, avg_lag_minutes := 1, leader_quality := none,
    volatility_score := none, volume_momentum := none,
    influence_score := none }

/-- C9 witness: the amended defaults theorem applied to a concrete row
with every metadata column absent, discharging the absent-quality branch
of its conclusion. -/
theorem claim9_witness :
    volatilityOf legacyRow = 0 ∧ volumeMomOf legacyRow = 1 ∧
    influenceOf legacyRow = legacyRow.follower_count ∧
    qualityOf legacyRow = some "WEAK" ∧
    ∀ r ∈ detect_strategies legacyRow, r.strategy ≠ "ALPHA_PREDATOR" := by
  obtain ⟨h1, h2, h3, h4, h5, h6⟩ :=
    claim9_missing_metadata_defaults legacyRow rfl rfl rfl
  exact ⟨h1, h2, h3, h4 rfl, h6 (Or.inl rfl)⟩

/-- C10: when the correlation stage yields zero candidate relationships,
the pipeline cycle leaves the graph store unchanged — update_neptune
returns before writing any vertex metadata — and appends no snapshot row
to the history store. -/
theorem claim10_zero_candidates_no_writes (g : Graph)
    (history : Option (List LeaderRow)) (dfIsEmpty : Bool)
    (correlations : List Rel) (metadata : List (String × Meta)) (now : Nat)
    (h : correlations = []) :
    handler g history dfIsEmpty correlations metadata now = (g, history) ∧
    update_neptune g correlations metadata now = g := by
  subst h
  constructor
  · unfold handler
    cases dfIsEmpty <;> rfl
  · rfl

/-- C10 witness: the no-writes theorem applied to an empty graph, an empty
history store and a nonempty metadata set. -/
theorem claim10_witness :
    handler ⟨[], []⟩ none false [] [("BTC", ⟨1, 2⟩)] 0 = (⟨[], []⟩, none) ∧
    update_neptune ⟨[], []⟩ [] [("BTC", ⟨1, 2⟩)] 0 = ⟨[], []⟩ :=
  claim10_zero_candidates_no_writes ⟨[], []⟩ none false []
    [("BTC", ⟨1, 2⟩)] 0 rfl

end Proyecto
